import Mathlib

/-!
Shallow embedding of the BrTelegramBot repository (src/database.py and
src/main.py) and verification of its specification claims.

Modelling choices:
* The sqlite table `tasks` is a `DB`: a list of rows plus the AUTOINCREMENT
  counter `next_id` (ids start at 1 and are never reused, per
  `INTEGER PRIMARY KEY AUTOINCREMENT`).
* `created_at` (a `CURRENT_TIMESTAMP` column used only as a sort key) is
  modelled as the value of the monotone counter at insertion time, so later
  inserts always carry strictly larger timestamps.
* Every `TaskDB` method wraps its body in `try/except Exception`, returning a
  fallback value on failure; each embedded operation therefore takes a
  `fault : Bool` flag meaning "the underlying sqlite call raised", and returns
  the fallback in that case.
* sqlite's default BINARY collation compares TEXT byte-wise; for the ASCII
  strings involved this is exactly Lean's `String` order, which `ORDER BY
  priority DESC, created_at` below uses.
* A Python exception that escapes a handler is an `Except.error`; the bot's
  registered error handler answers it with a fixed apology reply.
-/

/-- Byte-wise lexicographic order on character lists; on the ASCII strings of
this program it coincides with sqlite's BINARY collation on the UTF-8 bytes. -/
def charListLt : List Char → List Char → Bool
  | [], [] => false
  | [], _ :: _ => true
  | _ :: _, [] => false
  | a :: as, b :: bs => if a < b then true else if b < a then false else charListLt as bs

/-- sqlite BINARY collation `<` on TEXT values. -/
def textLt (a b : String) : Bool := charListLt a.data b.data

/-- Split a character list at a separator character (Python `str.split`). -/
def splitChars (sep : Char) : List Char → List Char → List (List Char)
  | [], acc => [acc.reverse]
  | c :: cs, acc =>
      if c = sep then acc.reverse :: splitChars sep cs [] else splitChars sep cs (c :: acc)

/-- Python `s.split('_')`. -/
def pySplitUnderscore (s : String) : List String :=
  (splitChars '_' s.data []).map (fun l => String.mk l)

/-- Whether the first list is an initial segment of the second. -/
def charListBegins : List Char → List Char → Bool
  | [], _ => true
  | _ :: _, [] => false
  | a :: as, b :: bs => if a = b then charListBegins as bs else false

/-- Python `s.startswith(pre)`. -/
def textBegins (s pre : String) : Bool := charListBegins pre.data s.data

/-- Helper for `pyInt`: accumulate decimal digits, failing on a non-digit. -/
def pyIntAux : List Char → Nat → Option Nat
  | [], acc => some acc
  | c :: cs, acc => if c.isDigit then pyIntAux cs (acc * 10 + (c.toNat - 48)) else none

/-- Python `int(s)` on the nonnegative decimal literals this program produces:
`none` models the ValueError raised on a malformed string. -/
def pyInt (s : String) : Option Nat :=
  if s.data.isEmpty then none else pyIntAux s.data 0

/-- A row of the sqlite table `tasks` (database.py lines 20-28). -/
structure Row where
  id : Nat
  user_id : String
  description : String
  priority : String
  created_at : Nat
deriving DecidableEq

/-- The task store: the rows plus the AUTOINCREMENT counter. -/
structure DB where
  rows : List Row
  next_id : Nat
deriving DecidableEq

/-- A freshly created store (AUTOINCREMENT ids start at 1). -/
def DB.empty : DB := { rows := [], next_id := 1 }

/-- The dict shape returned by `get_tasks` (keys id, description, priority). -/
structure TaskOut where
  id : Nat
  description : String
  priority : String
deriving DecidableEq

/-- The dict shape returned by `get_task` (keys id, user_id, description,
priority). -/
structure TaskFull where
  id : Nat
  user_id : String
  description : String
  priority : String
deriving DecidableEq

/-- database.py lines 35-47, `add_task(self, user_id, description, priority)`:
INSERT a new row; returns True, or False when the sqlite call raised. -/
def TaskDB.add_task (fault : Bool) (db : DB) (user_id description priority : String) :
    Bool × DB :=
  if fault then (false, db)
  else
    (true,
     { rows := db.rows ++
         [{ id := db.next_id, user_id := user_id, description := description,
            priority := priority, created_at := db.next_id }],
       next_id := db.next_id + 1 })

/-- The comparator of `ORDER BY priority DESC, created_at`: `a` sorts no later
than `b` iff `a`'s priority TEXT is byte-wise greater, or equal with an
earlier timestamp. -/
def rowBefore (a b : Row) : Bool :=
  if a.priority = b.priority then decide (a.created_at ≤ b.created_at)
  else textLt b.priority a.priority

/-- Insert one row into an already ordered list. -/
def insertRow (a : Row) : List Row → List Row
  | [] => [a]
  | b :: bs => if rowBefore a b then a :: b :: bs else b :: insertRow a bs

/-- Sort rows by the `ORDER BY priority DESC, created_at` comparator. -/
def sortRows : List Row → List Row
  | [] => []
  | a :: as => insertRow a (sortRows as)

/-- database.py lines 49-67, `get_tasks(self, user_id)`:
SELECT id, description, priority FROM tasks WHERE user_id = ?
ORDER BY priority DESC, created_at; returns [] when the sqlite call raised. -/
def TaskDB.get_tasks (fault : Bool) (db : DB) (user_id : String) : List TaskOut :=
  if fault then []
  else
    (sortRows (db.rows.filter (fun r => r.user_id == user_id))).map
      (fun r => { id := r.id, description := r.description, priority := r.priority })

/-- database.py lines 69-81, `update_task_description(self, task_id,
new_description)`: UPDATE tasks SET description = ? WHERE id = ?; returns True,
or False when the sqlite call raised. No row-count check is made. -/
def TaskDB.update_task_description (fault : Bool) (db : DB) (task_id : Nat)
    (new_description : String) : Bool × DB :=
  if fault then (false, db)
  else
    (true,
     { db with rows := db.rows.map (fun r =>
        if r.id == task_id then { r with description := new_description } else r) })

/-- database.py lines 83-95, `update_task_priority(self, task_id,
new_priority)`: UPDATE tasks SET priority = ? WHERE id = ?; returns True, or
False when the sqlite call raised. No validation of `new_priority` is made. -/
def TaskDB.update_task_priority (fault : Bool) (db : DB) (task_id : Nat)
    (new_priority : String) : Bool × DB :=
  if fault then (false, db)
  else
    (true,
     { db with rows := db.rows.map (fun r =>
        if r.id == task_id then { r with priority := new_priority } else r) })

/-- database.py lines 97-106, `delete_task(self, task_id)`:
DELETE FROM tasks WHERE id = ?; returns True, or False when the sqlite call
raised. No row-count check is made, so a nonexistent id still returns True. -/
def TaskDB.delete_task (fault : Bool) (db : DB) (task_id : Nat) : Bool × DB :=
  if fault then (false, db)
  else (true, { db with rows := db.rows.filter (fun r => !(r.id == task_id)) })

/-- database.py lines 108-127, `get_task(self, task_id)`:
SELECT id, user_id, description, priority FROM tasks WHERE id = ? (fetchone);
returns None when no row matches or when the sqlite call raised. -/
def TaskDB.get_task (fault : Bool) (db : DB) (task_id : Nat) : Option TaskFull :=
  if fault then none
  else
    (db.rows.find? (fun r => r.id == task_id)).map
      (fun r => { id := r.id, user_id := r.user_id, description := r.description,
                  priority := r.priority })

/-- Equality of handler outcomes is decidable. -/
instance {ε α : Type} [DecidableEq ε] [DecidableEq α] : DecidableEq (Except ε α) := fun a b =>
  match a, b with
  | Except.ok x, Except.ok y =>
      if h : x = y then isTrue (by rw [h]) else isFalse (by intro he; cases he; exact h rfl)
  | Except.ok _, Except.error _ => isFalse (by intro he; cases he)
  | Except.error _, Except.ok _ => isFalse (by intro he; cases he)
  | Except.error x, Except.error y =>
      if h : x = y then isTrue (by rw [h]) else isFalse (by intro he; cases he; exact h rfl)

/-- main.py line 33, `PRIORITIES = ['High', 'Medium', 'Low']`. -/
def PRIORITIES : List String := ["High", "Medium", "Low"]

/-- The per-user `context.user_data` dict: each field is `some v` exactly when
the corresponding key is present. main.py tests these keys with `in`
(membership), not by truthiness. -/
structure UserData where
  awaiting_task : Option Bool := none
  task_description : Option String := none
  awaiting_priority : Option Bool := none
  editing_task : Option Nat := none
  editing_field : Option String := none
deriving DecidableEq

/-- A user who has never interacted: empty user_data. -/
def UserData.empty : UserData := {}

/-- The state a handler can read and mutate: the shared store plus the acting
user's user_data. Replies are returned, notifications to other chats mutate
neither component and are not modelled. -/
structure BotState where
  db : DB
  ud : UserData
deriving DecidableEq

def promptDescriptionReply : String := "Please enter the task description (visible to all users):"

def promptPriorityReply : String := "Please select the task priority:"

def addOkReply (priority : String) : String :=
  "✅ Task added with " ++ priority ++ " priority!\nAll users have been notified."

def addFailReply : String := "⚠️ Failed to add task. Please try again."

def taskNotFoundReply : String := "⚠️ Task not found!"

def deleteOkReply (d : String) : String := "🗑 Task deleted: " ++ d

def deleteFailReply : String := "⚠️ Failed to delete task. Please try again."

def editMenuReply (d p : String) : String :=
  "What would you like to edit for this task?\n\nCurrent: *" ++ d ++ "* (" ++ p ++ " priority)"

def promptEditDescriptionReply : String := "Please send the new task description:"

def promptNewPriorityReply : String := "Select the new priority:"

def setPriorityOkReply (p : String) : String := "✅ Priority updated to " ++ p ++ "!"

def setPriorityFailReply : String := "⚠️ Failed to update priority. Please try again."

def cancelReply : String := "Edit operation cancelled."

def updateDescriptionOkReply : String := "✅ Task description updated!"

def updateDescriptionFailReply : String := "⚠️ Failed to update description. Please try again."

def emptyListReply : String := "No tasks yet! Use /add to create the first one."

def errorReply : String := "An error occurred. Please try again."

/-- main.py lines 88-90, the `/add` handler: sets `awaiting_task = True` and
prompts for the description. -/
def add_cmd (st : BotState) : BotState × String :=
  ({ st with ud := { st.ud with awaiting_task := some true } }, promptDescriptionReply)

/-- main.py lines 92-108, `receive_task_description`: guarded by the key test
`'awaiting_task' in context.user_data` (membership, regardless of the stored
value); stores the text as the pending description, sets
`awaiting_task = False`, `awaiting_priority = True` and shows the priority
keyboard. Otherwise does nothing. -/
def receive_task_description (st : BotState) (text : String) : BotState × Option String :=
  if st.ud.awaiting_task.isSome then
    ({ st with
        ud := { st.ud with
                  task_description := some text,
                  awaiting_task := some false,
                  awaiting_priority := some true } },
     some promptPriorityReply)
  else (st, none)

/-- main.py lines 239-261, `receive_edit_description`: requires both
`editing_task` and `editing_field` keys; fetches the task, and when it exists
and the field is the description, applies `update_task_description`, replies,
and deletes both editing keys. In every other case it does nothing. -/
def receive_edit_description (st : BotState) (text : String) : BotState × Option String :=
  match st.ud.editing_task, st.ud.editing_field with
  | some task_id, some field =>
      match TaskDB.get_task false st.db task_id with
      | some _ =>
          if field = "description" then
            let r := TaskDB.update_task_description false st.db task_id text
            let reply := if r.fst then updateDescriptionOkReply else updateDescriptionFailReply
            ({ db := r.snd,
               ud := { st.ud with editing_task := none, editing_field := none } },
             some reply)
          else (st, none)
      | none => (st, none)
  | _, _ => (st, none)

/-- main.py lines 110-237, `button_callback`, on callback data `data` from a
user with full name `fullName`; `fault` models an underlying sqlite failure
inside the store calls it makes. `Except.error` is a Python exception escaping
the handler (caught by the registered error handler). Note line 123 passes
`(description, priority, creator_name)` positionally into database.py's
`add_task(self, user_id, description, priority)`. -/
def button_callback (fault : Bool) (st : BotState) (fullName : String) (data : String) :
    Except String (BotState × Option String) :=
  if textBegins data ("priority_") then
    let priority := (pySplitUnderscore data).getD 1 ("")
    match st.ud.task_description with
    | some description =>
        let r := TaskDB.add_task fault st.db description priority fullName
        let reply := if r.fst then addOkReply priority else addFailReply
        Except.ok
          ({ db := r.snd,
             ud := { st.ud with task_description := none, awaiting_priority := none } },
           some reply)
    | none =>
        Except.ok
          ({ st with ud := { st.ud with task_description := none, awaiting_priority := none } },
           none)
  else if textBegins data ("delete_") then
    match pyInt ((pySplitUnderscore data).getD 1 ("")) with
    | none => Except.error ("ValueError: invalid literal for int")
    | some task_id =>
        match TaskDB.get_task fault st.db task_id with
        | some task =>
            let r := TaskDB.delete_task fault st.db task_id
            let reply := if r.fst then deleteOkReply task.description else deleteFailReply
            Except.ok ({ st with db := r.snd }, some reply)
        | none => Except.ok (st, some taskNotFoundReply)
  else if textBegins data ("edit_") then
    let parts := pySplitUnderscore data
    match pyInt (parts.getD 1 ("")) with
    | none => Except.error ("ValueError: invalid literal for int")
    | some task_id =>
        let action := parts.getD 2 ("")
        match TaskDB.get_task fault st.db task_id with
        | none => Except.ok (st, some taskNotFoundReply)
        | some task =>
            if action = "select" then
              Except.ok (st, some (editMenuReply task.description task.priority))
            else if action = "description" then
              Except.ok
                ({ st with
                    ud := { st.ud with
                              editing_task := some task_id,
                              editing_field := some ("description") } },
                 some promptEditDescriptionReply)
            else if action = "priority" then
              Except.ok (st, some promptNewPriorityReply)
            else if textBegins action ("setpriority") then
              match (pySplitUnderscore action).get? 1 with
              | none => Except.error ("IndexError: list index out of range")
              | some new_priority =>
                  let r := TaskDB.update_task_priority fault st.db task_id new_priority
                  let reply := if r.fst then setPriorityOkReply new_priority else setPriorityFailReply
                  Except.ok
                    ({ db := r.snd,
                       ud := { st.ud with editing_task := none, editing_field := none } },
                     some reply)
            else if action = "cancel" then
              Except.ok
                ({ st with ud := { st.ud with editing_task := none, editing_field := none } },
                 some cancelReply)
            else Except.ok (st, none)
  else Except.ok (st, none)

/-- The message-handler filter `filters.TEXT`, excluding commands: any text
not starting with a slash. -/
def textFilter (text : String) : Bool := !(textBegins text ("/"))

/-- main.py lines 344-345: `setup_bot` registers `receive_task_description`
and then `receive_edit_description`, both with the same text-and-not-command
filter and in the same (default) handler group. -/
def textHandlers : List ((String → Bool) × (BotState → String → BotState × Option String)) :=
  [(textFilter, receive_task_description), (textFilter, receive_edit_description)]

/-- python-telegram-bot dispatch inside one handler group: the first handler
whose filter accepts the update runs its callback; later handlers of the
group are not consulted for that update. -/
def runFirstHandler
    (hs : List ((String → Bool) × (BotState → String → BotState × Option String)))
    (st : BotState) (text : String) : BotState × Option String :=
  match hs with
  | [] => (st, none)
  | h :: rest => if h.fst text then h.snd st text else runFirstHandler rest st text

/-- A free-text (non-command) message as dispatched by the framework. -/
def handle_text (st : BotState) (text : String) : BotState × Option String :=
  runFirstHandler textHandlers st text

/-- Python attribute lookup of `get_all_tasks` on TaskDB: database.py (lines
12-127) defines the methods add_task, get_tasks, update_task_description,
update_task_priority, delete_task and get_task, and none named
`get_all_tasks`; the lookup therefore yields nothing and the call sites in
main.py raise AttributeError. -/
def TaskDB.get_all_tasks : Option (DB → List TaskOut) := none

/-- The rendering loop of main.py lines 270-274, restricted to the fields the
store rows carry; unreachable in this snapshot because `get_all_tasks` is
missing. -/
def renderSharedList (tasks : List TaskOut) : String :=
  tasks.foldl (fun acc t => acc ++ toString t.id ++ ". *" ++ t.description ++ "*\n")
    ("📋 *Shared Task List* 📋\n\n")

/-- main.py lines 263-276, the `/list` handler body: calls
`task_db.get_all_tasks()` and either replies with the empty-list message or
renders the list; the missing attribute makes it raise. -/
def list_tasks_cmd (st : BotState) : Except String (BotState × Option String) :=
  match TaskDB.get_all_tasks with
  | none => Except.error ("AttributeError: TaskDB object has no attribute get_all_tasks")
  | some f =>
      let tasks := f st.db
      if tasks.isEmpty then Except.ok (st, some emptyListReply)
      else Except.ok (st, some (renderSharedList tasks))

/-- main.py lines 322-325 plus line 348: any exception escaping a handler is
answered by the registered error handler with a generic apology reply. -/
def handle_list (st : BotState) : BotState × Option String :=
  match list_tasks_cmd st with
  | Except.ok x => x
  | Except.error _ => (st, some errorReply)

/-- A mutating store operation, for reasoning about histories of the store. -/
inductive DBOp
  | addT (fault : Bool) (user_id description priority : String)
  | updDescr (fault : Bool) (task_id : Nat) (new_description : String)
  | updPrio (fault : Bool) (task_id : Nat) (new_priority : String)
  | delT (fault : Bool) (task_id : Nat)

/-- Run one store operation for its state effect. -/
def DB.exec (db : DB) : DBOp → DB
  | DBOp.addT f u d p => (TaskDB.add_task f db u d p).snd
  | DBOp.updDescr f i s => (TaskDB.update_task_description f db i s).snd
  | DBOp.updPrio f i s => (TaskDB.update_task_priority f db i s).snd
  | DBOp.delT f i => (TaskDB.delete_task f db i).snd

/-- Run a history of store operations. -/
def DB.execList (db : DB) : List DBOp → DB
  | [] => db
  | op :: ops => DB.execList (db.exec op) ops

/-- The ids handed out by the successful creations along a history, including
those of records later deleted. -/
def assignedIds : DB → List DBOp → List Nat
  | _, [] => []
  | db, op :: ops =>
      (match op with
       | DBOp.addT false _ _ _ => [db.next_id]
       | _ => []) ++ assignedIds (db.exec op) ops

/-- Store invariant: every row id is below the AUTOINCREMENT counter. -/
def DB.WF (db : DB) : Prop := ∀ r ∈ db.rows, r.id < db.next_id

theorem delete_find_none (rows : List Row) (i : Nat) :
    (rows.filter (fun r => !(r.id == i))).find? (fun r => r.id == i) = none := by
  rw [List.find?_eq_none]
  intro r hr
  have h1 := List.of_mem_filter hr
  simp only [Bool.not_eq_true'] at h1
  simp [h1]

theorem upd_priority_find_comm (rows : List Row) (i : Nat) (p : String) :
    (rows.map (fun r => if r.id == i then { r with priority := p } else r)).find?
        (fun r => r.id == i)
      = (rows.find? (fun r => r.id == i)).map
          (fun r => if r.id == i then { r with priority := p } else r) := by
  rw [List.find?_map]
  have h : ((fun r : Row => r.id == i) ∘ fun r : Row =>
      if r.id == i then { r with priority := p } else r) = (fun r : Row => r.id == i) := by
    funext r
    by_cases h : r.id = i <;> simp [h]
  rw [h]

theorem exec_next_id_mono (db : DB) (op : DBOp) : db.next_id ≤ (db.exec op).next_id := by
  cases op with
  | addT f u d p => cases f <;> simp [DB.exec, TaskDB.add_task]
  | updDescr f i s => cases f <;> simp [DB.exec, TaskDB.update_task_description]
  | updPrio f i s => cases f <;> simp [DB.exec, TaskDB.update_task_priority]
  | delT f i => cases f <;> simp [DB.exec, TaskDB.delete_task]

theorem execList_next_id_mono (ops : List DBOp) (db : DB) :
    db.next_id ≤ (DB.execList db ops).next_id := by
  induction ops generalizing db with
  | nil => simp [DB.execList]
  | cons op ops ih => exact le_trans (exec_next_id_mono db op) (ih (db.exec op))

theorem assignedIds_lt_next (ops : List DBOp) (db : DB) :
    ∀ i ∈ assignedIds db ops, i < (DB.execList db ops).next_id := by
  induction ops generalizing db with
  | nil => simp [assignedIds]
  | cons op ops ih =>
      intro i hi
      simp only [assignedIds, List.mem_append] at hi
      rcases hi with hi | hi
      · have hlt : i < (db.exec op).next_id := by
          cases op with
          | addT f u d p =>
              cases f with
              | false =>
                  simp only [List.mem_singleton] at hi
                  subst hi
                  simp [DB.exec, TaskDB.add_task]
              | true => simp at hi
          | updDescr f j s => simp at hi
          | updPrio f j s => simp at hi
          | delT f j => simp at hi
        exact lt_of_lt_of_le hlt (execList_next_id_mono ops (db.exec op))
      · exact ih (db.exec op) i hi

theorem exec_preserves_WF (db : DB) (op : DBOp) (h : DB.WF db) : DB.WF (db.exec op) := by
  cases op with
  | addT f u d p =>
      cases f with
      | false =>
          intro r hr
          simp only [DB.exec, TaskDB.add_task, if_neg (by simp : ¬(false = true)),
            List.mem_append, List.mem_singleton] at hr ⊢
          rcases hr with hr | hr
          · exact lt_trans (h r hr) (Nat.lt_succ_self _)
          · subst hr; exact Nat.lt_succ_self _
      | true => exact h
  | updDescr f j s =>
      cases f with
      | false =>
          intro r hr
          simp only [DB.exec, TaskDB.update_task_description,
            if_neg (by simp : ¬(false = true)), List.mem_map] at hr ⊢
          rcases hr with ⟨r0, hr0, hrr⟩
          have hid : r.id = r0.id := by
            by_cases hc : r0.id = j
            · simp [hc] at hrr
              simp [← hrr, hc]
            · simp [hc] at hrr
              simp [← hrr]
          rw [hid]; exact h r0 hr0
      | true => exact h
  | updPrio f j s =>
      cases f with
      | false =>
          intro r hr
          simp only [DB.exec, TaskDB.update_task_priority,
            if_neg (by simp : ¬(false = true)), List.mem_map] at hr ⊢
          rcases hr with ⟨r0, hr0, hrr⟩
          have hid : r.id = r0.id := by
            by_cases hc : r0.id = j
            · simp [hc] at hrr
              simp [← hrr, hc]
            · simp [hc] at hrr
              simp [← hrr]
          rw [hid]; exact h r0 hr0
      | true => exact h
  | delT f j =>
      cases f with
      | false =>
          intro r hr
          simp only [DB.exec, TaskDB.delete_task,
            if_neg (by simp : ¬(false = true))] at hr
          exact h r (List.mem_of_mem_filter hr)
      | true => exact h

theorem execList_preserves_WF (ops : List DBOp) (db : DB) (h : DB.WF db) :
    DB.WF (DB.execList db ops) := by
  induction ops generalizing db with
  | nil => exact h
  | cons op ops ih => exact ih (db.exec op) (exec_preserves_WF db op h)

theorem empty_WF : DB.WF DB.empty := by
  intro r hr
  simp [DB.empty] at hr

/-- C1: the claim says `get_tasks` lists records by priority tier descending
(High, Medium, Low) and by creation order within a tier, so creating (Low,
High, Medium) should list (High, Medium, Low). The code's `ORDER BY priority
DESC` sorts the TEXT values byte-wise, so the same history actually lists
(Medium, Low, High). -/
theorem C1_priority_text_order :
    (let db3 := (TaskDB.add_task false
        (TaskDB.add_task false
          (TaskDB.add_task false DB.empty "u" "task one" "Low").snd
          "u" "task two" "High").snd
        "u" "task three" "Medium").snd
     (TaskDB.get_tasks false db3 "u").map TaskOut.priority = ["Medium", "Low", "High"]
     ∧ (TaskDB.get_tasks false db3 "u").map TaskOut.priority ≠ ["High", "Medium", "Low"]) := by
  decide

/-- C2: the claim says the add flow (/add, "Buy milk", High) stores one record
with description "Buy milk", priority High and the acting user as owner.
Because main.py passes (description, priority, creator_name) into
database.py's add_task(user_id, description, priority), the flow from an empty
store actually stores user_id "Buy milk", description "High" and priority
"Alice" (the creator's name), while the reply still confirms creation. -/
theorem C2_add_flow_swapped_arguments :
    (let st1 := (add_cmd { db := DB.empty, ud := UserData.empty }).fst
     let st2 := (handle_text st1 ("Buy milk")).fst
     let stEnd : BotState :=
       { db := { rows := [{ id := 1, user_id := "Buy milk", description := "High",
                            priority := "Alice", created_at := 1 }], next_id := 2 },
         ud := { awaiting_task := some false } }
     button_callback false st2 ("Alice") ("priority_High")
         = Except.ok (stEnd, some (addOkReply ("High")))
     ∧ stEnd.db.rows.map Row.description = ["High"]
     ∧ stEnd.db.rows.map Row.description ≠ ["Buy milk"]
     ∧ stEnd.db.rows.map Row.priority = ["Alice"]
     ∧ stEnd.db.rows.map Row.user_id = ["Buy milk"]) := by
  decide

/-- C3 counterexample: with one stored task, `update_task_priority 1 "Urgent"`
(a value outside the enumeration) reports success and changes the record,
contradicting the claim that it fails and leaves the record unchanged. -/
theorem C3_urgent_accepted :
    (let db1 := (TaskDB.add_task false DB.empty "u" "Buy milk" "High").snd
     let r := TaskDB.update_task_priority false db1 1 ("Urgent")
     ("Urgent" ∉ PRIORITIES) ∧ r.fst = true ∧
       TaskDB.get_task false r.snd 1
         = some { id := 1, user_id := "u", description := "Buy milk", priority := "Urgent" }) := by
  decide

/-- C3 (amended): `update_task_priority` performs no enumeration check: for
every store, id and string it reports success and rewrites the addressed
record's priority to exactly that string. -/
theorem C3_update_priority_unvalidated (db : DB) (i : Nat) (p : String) :
    (TaskDB.update_task_priority false db i p).fst = true ∧
    TaskDB.get_task false (TaskDB.update_task_priority false db i p).snd i
      = (TaskDB.get_task false db i).map (fun t => { t with priority := p }) := by
  refine ⟨rfl, ?_⟩
  simp only [TaskDB.get_task, TaskDB.update_task_priority, if_neg (by simp : ¬(false = true))]
  rw [upd_priority_find_comm]
  cases h : db.rows.find? (fun r => r.id == i) with
  | none => rfl
  | some r =>
      have he : r.id = i := by simpa using List.find?_some h
      simp [he]

/-- C4 counterexample: deleting from an empty store (a nonexistent id) returns
True, not the failure boolean the claim requires. -/
theorem C4_delete_nonexistent_true :
    (TaskDB.delete_task false DB.empty 1).fst = true ∧
    (TaskDB.delete_task false DB.empty 1).fst ≠ false := by
  decide

/-- C4 (amended): `delete_task` followed by `get_task` on the same id yields
not-found, and `delete_task` never raises; but because no row-count check is
made it reports success (True) on every id, existing or not. -/
theorem C4_delete_then_get_none (db : DB) (i : Nat) :
    (TaskDB.delete_task false db i).fst = true ∧
    TaskDB.get_task false (TaskDB.delete_task false db i).snd i = none := by
  refine ⟨rfl, ?_⟩
  simp only [TaskDB.get_task, TaskDB.delete_task, if_neg (by simp : ¬(false = true))]
  rw [delete_find_none]
  rfl

/-- C5: the claim says the shared-list variant's store has a listAll operation
and an empty store makes /list reply with the empty-list message. In this
snapshot main.py calls task_db.get_all_tasks(), a method database.py does not
define, so every /list (the empty store included) raises AttributeError and
the error handler sends the generic apology instead of the empty-list
reply. -/
theorem C5_list_raises_attribute_error :
    (∀ st : BotState, list_tasks_cmd st
        = Except.error ("AttributeError: TaskDB object has no attribute get_all_tasks"))
    ∧ handle_list { db := DB.empty, ud := UserData.empty }
        = ({ db := DB.empty, ud := UserData.empty }, some errorReply)
    ∧ errorReply ≠ emptyListReply := by
  refine ⟨fun st => rfl, by decide, by decide⟩

/-- C6 counterexample: a user awaiting the priority selection whose add_task
call fails gets the retry reply, but the pending description and the
awaiting_priority key are deleted rather than preserved, contradicting the
claim that the conversation state is left unresolved for a retry. -/
theorem C6_failure_clears_pending :
    (let ud0 : UserData := { awaiting_task := some false,
                             task_description := some ("Buy milk"),
                             awaiting_priority := some true }
     let r := button_callback true { db := DB.empty, ud := ud0 } ("Alice") ("priority_High")
     r = Except.ok
           ({ db := DB.empty, ud := { awaiting_task := some false } }, some addFailReply)
     ∧ ({ awaiting_task := some false } : UserData).task_description ≠ ud0.task_description) := by
  decide

/-- C6 (amended): whenever the store's create fails during the priority step,
the user is shown the retry reply, but the pending description and the
awaiting_priority key are deleted (main.py cleans the context
unconditionally), so the add flow must be restarted from /add. -/
theorem C6_failure_reply_and_state_cleared (db : DB) (ud : UserData) (d fn : String)
    (h : ud.task_description = some d) :
    button_callback true { db := db, ud := ud } fn ("priority_High")
      = Except.ok
          ({ db := db,
             ud := { ud with task_description := none, awaiting_priority := none } },
           some addFailReply) := by
  have h1 : textBegins ("priority_High") ("priority_") = true := by decide
  simp only [button_callback, h1, if_true, h, TaskDB.add_task]
  rfl

/-- C6 witness: the amended theorem applied at a concrete awaiting-priority
state. -/
theorem C6_failure_witness :
    ({ awaiting_task := some false, task_description := some ("Buy milk"),
       awaiting_priority := some true } : UserData).task_description = some ("Buy milk")
    ∧ button_callback true
        { db := DB.empty,
          ud := { awaiting_task := some false, task_description := some ("Buy milk"),
                  awaiting_priority := some true } } ("Alice") ("priority_High")
        = Except.ok
            ({ db := DB.empty,
               ud := { awaiting_task := some false, task_description := none,
                       awaiting_priority := none } },
             some addFailReply) :=
  ⟨rfl, C6_failure_reply_and_state_cleared DB.empty
    { awaiting_task := some false, task_description := some ("Buy milk"),
      awaiting_priority := some true } "Buy milk" "Alice" rfl⟩

/-- C7: the claim says a free-text message from a user in phase Idle —
including a user who has already completed an add flow — is a no-op. A fresh
idle user is indeed a no-op, but a completed add flow leaves the stale entry
awaiting_task = False in user_data, and receive_task_description tests the
key's presence, not its value: the next free-text message is swallowed as a
new task description and the priority keyboard is shown, changing the
conversation state. -/
theorem C7_stale_awaiting_key_not_noop :
    (let fresh : BotState := { db := DB.empty, ud := UserData.empty }
     let st2 := (handle_text ((add_cmd fresh).fst) ("Buy milk")).fst
     let dbEnd : DB :=
       { rows := [{ id := 1, user_id := "Buy milk", description := "High",
                    priority := "Alice", created_at := 1 }], next_id := 2 }
     let afterFlow : BotState := { db := dbEnd, ud := { awaiting_task := some false } }
     handle_text fresh ("hello") = (fresh, none)
     ∧ button_callback false st2 ("Alice") ("priority_High")
         = Except.ok (afterFlow, some (addOkReply ("High")))
     ∧ handle_text afterFlow ("hello")
         = ({ db := dbEnd,
              ud := { awaiting_task := some false, task_description := some ("hello"),
                      awaiting_priority := some true } },
            some promptPriorityReply)
     ∧ handle_text afterFlow ("hello") ≠ (afterFlow, none)) := by
  decide

/-- C8: the claim says a user in phase AwaitingEditField(taskId) for the
description has the next free-text message dispatched to the edit handler,
which updates the description and returns the phase to Idle. setup_bot
registers receive_task_description and receive_edit_description with the same
filter in the same group, and the framework runs only the first matching
handler, so the message is consumed by receive_task_description (a no-op for
this user), the store keeps the old description, and the editing keys stay
set; receive_edit_description, had it run, would have performed exactly the
claimed update. -/
theorem C8_edit_message_swallowed :
    (let db1 := (TaskDB.add_task false DB.empty "u" "Old text" "High").snd
     let editing : BotState :=
       { db := db1, ud := { editing_task := some 1, editing_field := some ("description") } }
     button_callback false { db := db1, ud := UserData.empty } ("Alice") ("edit_1_description")
         = Except.ok (editing, some promptEditDescriptionReply)
     ∧ handle_text editing ("New text") = (editing, none)
     ∧ TaskDB.get_task false (handle_text editing ("New text")).fst.db 1
         = some { id := 1, user_id := "u", description := "Old text", priority := "High" }
     ∧ receive_edit_description editing ("New text")
         = ({ db := (TaskDB.update_task_description false db1 1 ("New text")).snd,
              ud := { editing_task := none, editing_field := none } },
            some updateDescriptionOkReply)) := by
  decide

/-- C9: after any history of store operations starting from the empty store, a
successful add_task with a valid priority assigns the current AUTOINCREMENT
value as the new id — different from every id assigned earlier in the history,
deleted records included — and get_task of that id returns a record carrying
exactly the supplied description and priority. -/
theorem C9_create_fresh_id_get_exact (ops : List DBOp) (u d p : String)
    (hp : p ∈ PRIORITIES) :
    (TaskDB.add_task false (DB.execList DB.empty ops) u d p).fst = true ∧
    (DB.execList DB.empty ops).next_id ∉ assignedIds DB.empty ops ∧
    TaskDB.get_task false (TaskDB.add_task false (DB.execList DB.empty ops) u d p).snd
        (DB.execList DB.empty ops).next_id
      = some { id := (DB.execList DB.empty ops).next_id, user_id := u,
               description := d, priority := p } := by
  refine ⟨rfl, ?_, ?_⟩
  · intro hmem
    exact absurd (assignedIds_lt_next ops DB.empty _ hmem) (lt_irrefl _)
  · have hwf : DB.WF (DB.execList DB.empty ops) :=
      execList_preserves_WF ops DB.empty empty_WF
    set db := DB.execList DB.empty ops with hdb
    have hnone : db.rows.find? (fun r => r.id == db.next_id) = none := by
      rw [List.find?_eq_none]
      intro r hr
      have := hwf r hr
      simp
      omega
    simp only [TaskDB.get_task, TaskDB.add_task, if_neg (by simp : ¬(false = true))]
    rw [List.find?_append, hnone]
    simp

/-- C9 witness: the theorem applied after a history that created one task and
deleted it; the next creation still picks the fresh id 2, not the retired
id 1. -/
theorem C9_create_witness :
    ("High" ∈ PRIORITIES)
    ∧ ((TaskDB.add_task false
          (DB.execList DB.empty [DBOp.addT false "v" "Pay bills" "Low", DBOp.delT false 1])
          "u" "Buy milk" "High").fst = true
       ∧ (DB.execList DB.empty [DBOp.addT false "v" "Pay bills" "Low", DBOp.delT false 1]).next_id
           ∉ assignedIds DB.empty [DBOp.addT false "v" "Pay bills" "Low", DBOp.delT false 1]
       ∧ TaskDB.get_task false
           (TaskDB.add_task false
             (DB.execList DB.empty [DBOp.addT false "v" "Pay bills" "Low", DBOp.delT false 1])
             "u" "Buy milk" "High").snd
           (DB.execList DB.empty [DBOp.addT false "v" "Pay bills" "Low", DBOp.delT false 1]).next_id
         = some { id := (DB.execList DB.empty
                    [DBOp.addT false "v" "Pay bills" "Low", DBOp.delT false 1]).next_id,
                  user_id := "u", description := "Buy milk", priority := "High" }) :=
  ⟨by decide,
   C9_create_fresh_id_get_exact [DBOp.addT false "v" "Pay bills" "Low", DBOp.delT false 1]
     "u" "Buy milk" "High" (by decide)⟩

/-- C10: every TaskDB operation, when its underlying sqlite call raises,
returns its documented fallback value (False with the store unchanged, the
empty list, or None) instead of propagating the exception to the handler
layer. -/
theorem C10_fault_returns_fallback (db : DB) (u d p s : String) (i : Nat) :
    TaskDB.add_task true db u d p = (false, db) ∧
    TaskDB.get_tasks true db u = [] ∧
    TaskDB.get_task true db i = none ∧
    TaskDB.update_task_description true db i s = (false, db) ∧
    TaskDB.update_task_priority true db i p = (false, db) ∧
    TaskDB.delete_task true db i = (false, db) :=
  ⟨rfl, rfl, rfl, rfl, rfl, rfl⟩
